import Mathlib

/-!
Shallow embedding of the token cache / refresh logic of the outlook-mcp
repository (src/auth/token-manager.js and the auth module containing
ensureAuthenticated).

Modelling conventions:
- JS epoch-millisecond times and `expires_in` seconds are `Int`.
- A parsed JSON token object is `TokenObj`; a field that may be absent is an
  `Option`.  JS truthiness of a string field (`!tokens.access_token`) is the
  `truthy` predicate: present and non-empty.
- The token file on disk is `FileState`: missing, unreadable/unparsable
  (`malformed`), or parsed to a `TokenObj`.
- The module-global `cachedTokens` variable is a `Cache := Option TokenObj`
  threaded explicitly through every function.
- `fs.writeFileSync` success or failure is an oracle Boolean `writeOk`.
- The HTTPS refresh call's outcome is an oracle `HttpResponse` argument:
  a transport error, or a status code with a raw body that either fails
  JSON.parse (`malformed`) or parses to a `TokenResponse`.
- Promise resolution/rejection becomes the explicit result type
  `RefreshResultV`; the `.catch(... => null)` in getAccessToken becomes a
  `match` collapsing errors to `none`.
-/

namespace OutlookMcp

/-- A parsed token object as stored in the token file / cache.
Provider metadata fields other than the three the logic reads are not
modelled. -/
structure TokenObj where
  access_token : Option String
  refresh_token : Option String
  expires_at : Option Int
  deriving Repr, DecidableEq

/-- JS truthiness of an optional string field: present and non-empty
(`!tokens.access_token` is true for `undefined` and for `""`). -/
def truthy : Option String → Bool
  | some s => !s.isEmpty
  | none => false

/-- State of the token file on disk: missing (`fs.existsSync` false),
unreadable or not parsing to a JSON object (`malformed`), or parsed. -/
inductive FileState
  | missing
  | malformed
  | parsed (t : TokenObj)
  deriving Repr, DecidableEq

/-- The module-global `cachedTokens` variable (`null` or a token object). -/
abbrev Cache := Option TokenObj

/-- Model of `loadTokenCache()`: returns the parsed tokens or `null`, and the updated
global cache.  Missing file → null; read/parse error → null; parsed object
without a truthy `access_token` → null.  Only on success is `cachedTokens`
assigned. -/
def loadTokenCache : FileState → Cache → Option TokenObj × Cache
  | .missing, c => (none, c)
  | .malformed, c => (none, c)
  | .parsed t, c =>
      if truthy t.access_token then (some t, some t) else (none, c)

/-- Model of `saveTokenCache(tokens)`: writes the file and then assigns
`cachedTokens = tokens`, returning `true`; if the write throws, the `catch`
returns `false` and the cache assignment is never reached.
Result: (returned Boolean, file state after, cache after). -/
def saveTokenCache (writeOk : Bool) (tokens : TokenObj)
    (file : FileState) (cache : Cache) : Bool × FileState × Cache :=
  if writeOk then (true, .parsed tokens, some tokens) else (false, file, cache)

/-- Parsed JSON body of a 2xx refresh response.  Per the wire interface the
provider's successful response declares `expires_in` (seconds);
`access_token` and `refresh_token` are kept optional because the code never
validates their presence. -/
structure TokenResponse where
  access_token : Option String
  refresh_token : Option String
  expires_in : Int
  deriving Repr, DecidableEq

/-- Raw body of an HTTP response: fails `JSON.parse` or parses. -/
inductive RespBody
  | malformed
  | parsed (r : TokenResponse)
  deriving Repr, DecidableEq

/-- Outcome of the HTTPS request: transport error (`req.on('error')`) or a
response with a status code and body. -/
inductive HttpResponse
  | transportError
  | status (code : Nat) (body : RespBody)
  deriving Repr, DecidableEq

/-- The distinct rejection reasons of `refreshAccessToken`. -/
inductive RefreshError
  | noRefreshToken
  | parseError (code : Nat)
  | httpError (code : Nat)
  | transportError
  deriving Repr, DecidableEq

/-- Promise outcome of `refreshAccessToken`: resolved with
`tokenResponse.access_token` (which the code never checks for presence,
hence `Option String`), or rejected. -/
inductive RefreshResultV
  | ok (tok : Option String)
  | err (e : RefreshError)
  deriving Repr, DecidableEq

/-- Full observable outcome of one `refreshAccessToken()` run. -/
structure RefreshOutcome where
  result : RefreshResultV
  file : FileState
  cache : Cache
  /-- whether the HTTPS request to the token endpoint was issued -/
  networkCalled : Bool
  /-- the record handed to `saveTokenCache`, when that point is reached -/
  saved : Option TokenObj
  deriving Repr, DecidableEq

/-- Model of `refreshAccessToken()`: re-loads the token file, rejects immediately
(no network call) without tokens or without a truthy `refresh_token`;
otherwise issues the request.  On a 2xx parsed body it computes
`expires_at = Date.now() + expires_in * 1000`, carries the old
`refresh_token` forward when the response's is falsy, calls
`saveTokenCache` (ignoring its Boolean result), and resolves the response's
`access_token`. -/
def refreshAccessToken (now : Int) (resp : HttpResponse) (writeOk : Bool)
    (file : FileState) (cache : Cache) : RefreshOutcome :=
  let p := loadTokenCache file cache
  match p.1 with
  | none => ⟨.err .noRefreshToken, file, p.2, false, none⟩
  | some tokens =>
    if truthy tokens.refresh_token then
      match resp with
      | .transportError => ⟨.err .transportError, file, p.2, true, none⟩
      | .status code body =>
        if 200 ≤ code ∧ code < 300 then
          match body with
          | .malformed => ⟨.err (.parseError code), file, p.2, true, none⟩
          | .parsed tr =>
            let expiresAt := now + tr.expires_in * 1000
            let newRefresh :=
              if !truthy tr.refresh_token && truthy tokens.refresh_token then
                tokens.refresh_token
              else tr.refresh_token
            let newRec : TokenObj :=
              ⟨tr.access_token, newRefresh, some expiresAt⟩
            let s := saveTokenCache writeOk newRec file p.2
            ⟨.ok tr.access_token, s.2.1, s.2.2, true, some newRec⟩
        else ⟨.err (.httpError code), file, p.2, true, none⟩
    else ⟨.err .noRefreshToken, file, p.2, false, none⟩

/-- The 5-minute safety margin, in milliseconds (`5 * 60 * 1000`). -/
def safetyMarginMs : Int := 5 * 60 * 1000

/-- The expiry check of `getAccessToken`:
`now > (tokens.expires_at || 0) - 5 * 60 * 1000`. -/
def isExpiringSoon (now : Int) (tokens : TokenObj) : Bool :=
  now > tokens.expires_at.getD 0 - safetyMarginMs

/-- Full observable outcome of one `getAccessToken()` call (with its
eventual refresh, if one is started, run to completion). -/
structure GetOutcome where
  /-- the value the caller eventually receives; `none` is JS null/undefined -/
  result : Option String
  file : FileState
  cache : Cache
  /-- whether `refreshAccessToken` was invoked -/
  refreshAttempted : Bool
  /-- whether the HTTPS request to the token endpoint was issued -/
  networkCalled : Bool
  /-- whether `loadTokenCache` (a read of the store) was reached -/
  storeRead : Bool
  /-- whether the `cachedTokens` global was consulted -/
  cacheChecked : Bool
  deriving Repr, DecidableEq

/-- The branch of `getAccessToken` after `const tokens = loadTokenCache()`:
null without tokens; refresh when expiring (with `.catch` mapping the
rejection to null); otherwise the loaded `access_token`. -/
def getAccessTokenLoaded (now : Int) (resp : HttpResponse) (writeOk : Bool)
    (file : FileState) (cache : Cache) : GetOutcome :=
  let p := loadTokenCache file cache
  match p.1 with
  | none => ⟨none, file, p.2, false, false, true, true⟩
  | some tokens =>
    if isExpiringSoon now tokens then
      let r := refreshAccessToken now resp writeOk file p.2
      ⟨match r.result with | .ok tok => tok | .err _ => none,
       r.file, r.cache, true, r.networkCalled, true, true⟩
    else ⟨tokens.access_token, file, p.2, false, false, true, true⟩

/-- Model of `getAccessToken()`: if `cachedTokens` holds a truthy `access_token`,
either refresh (when within the safety margin of expiry, the rejection
caught to null) or return the cached token; otherwise fall through to the
load-from-file path. -/
def getAccessToken (now : Int) (resp : HttpResponse) (writeOk : Bool)
    (file : FileState) (cache : Cache) : GetOutcome :=
  match cache with
  | some ct =>
    if truthy ct.access_token then
      if isExpiringSoon now ct then
        let r := refreshAccessToken now resp writeOk file cache
        ⟨match r.result with | .ok tok => tok | .err _ => none,
         r.file, r.cache, true, r.networkCalled, true, true⟩
      else ⟨ct.access_token, file, cache, false, false, false, true⟩
    else getAccessTokenLoaded now resp writeOk file cache
  | none => getAccessTokenLoaded now resp writeOk file cache

/-- Result of `ensureAuthenticated`: the access token, or the thrown
`'Authentication required'` error. -/
inductive AuthResult
  | ok (tok : String)
  | authRequired
  deriving Repr, DecidableEq

/-- Full observable outcome of one `ensureAuthenticated` call. -/
structure AuthOutcome where
  result : AuthResult
  file : FileState
  cache : Cache
  refreshAttempted : Bool
  networkCalled : Bool
  storeRead : Bool
  cacheChecked : Bool
  deriving Repr, DecidableEq

/-- Model of `ensureAuthenticated(forceNew)`: with `forceNew` it throws
`'Authentication required'` before touching the token manager; otherwise it
awaits `getAccessToken()` and throws the same error when the result is
falsy (null, undefined or the empty string). -/
def ensureAuthenticated (forceNew : Bool) (now : Int) (resp : HttpResponse)
    (writeOk : Bool) (file : FileState) (cache : Cache) : AuthOutcome :=
  if forceNew then
    ⟨.authRequired, file, cache, false, false, false, false⟩
  else
    let g := getAccessToken now resp writeOk file cache
    match g.result with
    | some tok =>
      if tok.isEmpty then
        ⟨.authRequired, g.file, g.cache, g.refreshAttempted, g.networkCalled,
         g.storeRead, g.cacheChecked⟩
      else
        ⟨.ok tok, g.file, g.cache, g.refreshAttempted, g.networkCalled,
         g.storeRead, g.cacheChecked⟩
    | none =>
      ⟨.authRequired, g.file, g.cache, g.refreshAttempted, g.networkCalled,
       g.storeRead, g.cacheChecked⟩

/-!
Concurrency model.  The runtime is a single-threaded event loop: each
`getAccessToken()` call runs its synchronous segment — the cache check, the
expiry check, and inside `refreshAccessToken` the file load and the issuing
of the HTTPS request — atomically to completion; only the network response
(and with it `saveTokenCache`) is delivered later.  A burst of N requests
that all arrive before any refresh response is modelled by running the
synchronous prefix of each call in sequence, threading the cache (the file
is not written during any prefix), and counting the HTTPS requests issued.
-/

/-- The synchronous prefix of `refreshAccessToken`, up to (and including)
issuing the HTTPS request: (cache after, whether a request was issued). -/
def refreshSyncPhase (file : FileState) (cache : Cache) : Cache × Bool :=
  let p := loadTokenCache file cache
  match p.1 with
  | none => (p.2, false)
  | some tokens => (p.2, truthy tokens.refresh_token)

/-- The synchronous prefix of the load path of `getAccessToken`. -/
def loadedSyncPhase (now : Int) (file : FileState) (cache : Cache) :
    Cache × Bool :=
  let p := loadTokenCache file cache
  match p.1 with
  | none => (p.2, false)
  | some tokens =>
    if isExpiringSoon now tokens then refreshSyncPhase file p.2
    else (p.2, false)

/-- The synchronous prefix of `getAccessToken`. -/
def getAccessTokenSyncPhase (now : Int) (file : FileState) (cache : Cache) :
    Cache × Bool :=
  match cache with
  | some ct =>
    if truthy ct.access_token then
      if isExpiringSoon now ct then refreshSyncPhase file cache
      else (cache, false)
    else loadedSyncPhase now file cache
  | none => loadedSyncPhase now file cache

/-- Number of HTTPS refresh requests issued by a burst of `n` concurrent
`getAccessToken()` calls whose synchronous prefixes all run before any
refresh response arrives. -/
def refreshBurst (now : Int) (file : FileState) : Nat → Cache → Nat
  | 0, _ => 0
  | Nat.succ n, cache =>
    let p := getAccessTokenSyncPhase now file cache
    (if p.2 then 1 else 0) + refreshBurst now file n p.1

/-- Modelled from the spec's words (§3 data model / §8 C5 sources):
`expires_at` is "within 5 minutes of now or already past", read
inclusively, matching the complementary Valid clause "`expires_at` more
than a fixed safety margin (5 minutes) in the future". -/
def specWithinMarginOrPast (now expiresAt : Int) : Bool :=
  expiresAt ≤ now + safetyMarginMs

/-- Modelled from the spec's words (C6 sources, external-interface table):
structural validity requires `access_token`, `refresh_token` and
`expires_at` all present (strings non-empty under JS truthiness). -/
def specStructurallyValid (t : TokenObj) : Bool :=
  truthy t.access_token && truthy t.refresh_token && t.expires_at.isSome

/-- A response with which `refreshAccessToken` fails whenever it gets past
the refresh-token precondition: transport error, non-2xx status, or a 2xx
body that does not parse. -/
def respFails : HttpResponse → Bool
  | .transportError => true
  | .status code body =>
    if 200 ≤ code ∧ code < 300 then
      match body with
      | .malformed => true
      | .parsed _ => false
    else true

/-- Precondition failure of `refreshAccessToken` (its first guard): the
re-loaded token file yields no record, or a record whose `refresh_token` is
not truthy. -/
def noUsableRefreshToken (file : FileState) (cache : Cache) : Bool :=
  match (loadTokenCache file cache).1 with
  | none => true
  | some t => !truthy t.refresh_token

/-- C6 (counterexample): a token file containing only `access_token` fails
the spec's three-required-fields structural check, yet `loadTokenCache`
returns the record instead of mapping it to absent: the code checks only
`access_token`. -/
theorem C6_counterexample :
    specStructurallyValid ⟨some "A", none, none⟩ = false ∧
    (loadTokenCache (.parsed ⟨some "A", none, none⟩) none).1 =
      some ⟨some "A", none, none⟩ := by decide

/-- C6 (amended): `loadTokenCache` never propagates an error: a missing
file and malformed content both map to absent, and a parsed record is
returned exactly when its `access_token` is truthy — presence of
`refresh_token` or `expires_at` is not checked. -/
theorem C6_amended (c : Cache) (t : TokenObj) :
    loadTokenCache .missing c = (none, c) ∧
    loadTokenCache .malformed c = (none, c) ∧
    (loadTokenCache (.parsed t) c).1 =
      (if truthy t.access_token then some t else none) := by
  refine ⟨rfl, rfl, ?_⟩
  cases h : truthy t.access_token <;> simp [loadTokenCache, h]

/-- C7: a refresh attempt with no loadable record or no truthy refresh
token rejects immediately with the no-refresh-token error and issues no
network request. -/
theorem C7_no_refresh_token_fails_without_network
    (now : Int) (resp : HttpResponse) (writeOk : Bool)
    (file : FileState) (cache : Cache)
    (h : noUsableRefreshToken file cache = true) :
    (refreshAccessToken now resp writeOk file cache).result =
        .err .noRefreshToken ∧
    (refreshAccessToken now resp writeOk file cache).networkCalled = false := by
  unfold noUsableRefreshToken at h
  cases hl : (loadTokenCache file cache).1 with
  | none => simp [refreshAccessToken, hl]
  | some t =>
    rw [hl] at h
    simp only [Bool.not_eq_true'] at h
    simp [refreshAccessToken, hl, h]

/-- C7 (witness): a missing token file makes the refresh fail with the
no-refresh-token error and no network call. -/
theorem C7_witness :
    (refreshAccessToken 0 .transportError true .missing none).result =
        .err .noRefreshToken ∧
    (refreshAccessToken 0 .transportError true .missing none).networkCalled =
        false :=
  C7_no_refresh_token_fails_without_network 0 .transportError true .missing
    none (by decide)

/-- C8: `ensureAuthenticated` with `forceNew = true` throws
authentication-required for every cache and store state, without consulting
the cache, reading the store, attempting a refresh, or calling the
network. -/
theorem C8_forceNew_always_authRequired
    (now : Int) (resp : HttpResponse) (writeOk : Bool)
    (file : FileState) (cache : Cache) :
    ensureAuthenticated true now resp writeOk file cache =
      ⟨.authRequired, file, cache, false, false, false, false⟩ := rfl

/-- C10: `saveTokenCache` reports exactly the write outcome and updates the
in-memory cache exactly when the write succeeded; a failed save leaves the
cache unchanged. -/
theorem C10_cache_updated_iff_saved
    (writeOk : Bool) (tokens : TokenObj) (file : FileState) (cache : Cache) :
    (saveTokenCache writeOk tokens file cache).1 = writeOk ∧
    (saveTokenCache writeOk tokens file cache).2.2 =
      (if writeOk then some tokens else cache) := by
  cases writeOk <;> simp [saveTokenCache]

/-- C1 (counterexample): with a failing store (`writeOk = false`), saving
the refreshed record reports failure, yet `refreshAccessToken` on a 2xx
response still resolves with the new access token and nothing is persisted
— the Boolean returned by `saveTokenCache` is ignored at the call site. -/
theorem C1_counterexample :
    (saveTokenCache false ⟨some "A2", some "R1", some 3600000⟩
        (.parsed ⟨some "A1", some "R1", some 0⟩)
        (some ⟨some "A1", some "R1", some 0⟩)).1 = false ∧
    (refreshAccessToken 0 (.status 200 (.parsed ⟨some "A2", none, 3600⟩))
        false (.parsed ⟨some "A1", some "R1", some 0⟩) none).result =
      .ok (some "A2") ∧
    (refreshAccessToken 0 (.status 200 (.parsed ⟨some "A2", none, 3600⟩))
        false (.parsed ⟨some "A1", some "R1", some 0⟩) none).file =
      .parsed ⟨some "A1", some "R1", some 0⟩ := by decide

/-- C1 (amended): on a 2xx parsed response with a usable current record,
a refresh whose save fails still resolves successfully with the response's
access token; the save failure is not propagated, the file keeps the old
record and the in-memory cache keeps the record loaded at the start of the
refresh. -/
theorem C1_amended (now : Int) (code : Nat) (tr : TokenResponse)
    (file : FileState) (cache : Cache) (t : TokenObj)
    (hf : file = .parsed t) (ha : truthy t.access_token = true)
    (hr : truthy t.refresh_token = true) (hc : 200 ≤ code ∧ code < 300) :
    (refreshAccessToken now (.status code (.parsed tr)) false file
        cache).result = .ok tr.access_token ∧
    (refreshAccessToken now (.status code (.parsed tr)) false file
        cache).file = file ∧
    (refreshAccessToken now (.status code (.parsed tr)) false file
        cache).cache = some t := by
  subst hf
  simp [refreshAccessToken, loadTokenCache, saveTokenCache, ha, hr, hc.1,
    hc.2]

/-- C1 (witness): concrete failing-save refresh resolving the new token. -/
theorem C1_amended_witness :
    (refreshAccessToken 7 (.status 200 (.parsed ⟨some "A2", some "R2", 60⟩))
        false (.parsed ⟨some "A1", some "R1", some 0⟩) none).result =
      .ok (some "A2") ∧
    (refreshAccessToken 7 (.status 200 (.parsed ⟨some "A2", some "R2", 60⟩))
        false (.parsed ⟨some "A1", some "R1", some 0⟩) none).file =
      .parsed ⟨some "A1", some "R1", some 0⟩ ∧
    (refreshAccessToken 7 (.status 200 (.parsed ⟨some "A2", some "R2", 60⟩))
        false (.parsed ⟨some "A1", some "R1", some 0⟩) none).cache =
      some ⟨some "A1", some "R1", some 0⟩ :=
  C1_amended 7 200 ⟨some "A2", some "R2", 60⟩ _ none
    ⟨some "A1", some "R1", some 0⟩ rfl (by decide) (by decide) (by decide)

/-- C3: a successful refresh whose 2xx response body lacks `refresh_token`
produces a record whose `refresh_token` equals the previous record's, and
that carried-forward token is truthy — it never regresses to empty. -/
theorem C3_refresh_token_preserved (now : Int) (code : Nat)
    (tr : TokenResponse) (writeOk : Bool) (file : FileState) (cache : Cache)
    (t : TokenObj) (hf : file = .parsed t)
    (ha : truthy t.access_token = true) (hr : truthy t.refresh_token = true)
    (hc : 200 ≤ code ∧ code < 300) (hno : tr.refresh_token = none) :
    ((refreshAccessToken now (.status code (.parsed tr)) writeOk file
        cache).saved).map TokenObj.refresh_token = some t.refresh_token ∧
    ((refreshAccessToken now (.status code (.parsed tr)) writeOk file
        cache).saved).map (fun s => truthy s.refresh_token) = some true := by
  subst hf
  have hrtr : truthy tr.refresh_token = false := by rw [hno]; rfl
  simp [refreshAccessToken, loadTokenCache, saveTokenCache, ha, hr, hrtr,
    hc.1, hc.2]

/-- C3 (witness): concrete refresh with a response omitting
`refresh_token`. -/
theorem C3_witness :
    ((refreshAccessToken 5 (.status 200 (.parsed ⟨some "A2", none, 3600⟩))
        true (.parsed ⟨some "A1", some "R1", some 0⟩) none).saved).map
      TokenObj.refresh_token = some (some "R1") ∧
    ((refreshAccessToken 5 (.status 200 (.parsed ⟨some "A2", none, 3600⟩))
        true (.parsed ⟨some "A1", some "R1", some 0⟩) none).saved).map
      (fun s => truthy s.refresh_token) = some true :=
  C3_refresh_token_preserved 5 200 ⟨some "A2", none, 3600⟩ true _ none
    ⟨some "A1", some "R1", some 0⟩ rfl (by decide) (by decide) (by decide)
    rfl

/-- C9: every record produced by a successful refresh carries
`expires_at = now + expires_in * 1000`, computed from the refresh-response
time and the response's declared lifetime, whatever the response or prior
record otherwise contain. -/
theorem C9_expires_at_computed (now : Int) (code : Nat) (tr : TokenResponse)
    (writeOk : Bool) (file : FileState) (cache : Cache) (t : TokenObj)
    (hf : file = .parsed t) (ha : truthy t.access_token = true)
    (hr : truthy t.refresh_token = true) (hc : 200 ≤ code ∧ code < 300) :
    ((refreshAccessToken now (.status code (.parsed tr)) writeOk file
        cache).saved).map TokenObj.expires_at =
      some (some (now + tr.expires_in * 1000)) := by
  subst hf
  simp [refreshAccessToken, loadTokenCache, saveTokenCache, ha, hr, hc.1,
    hc.2]

/-- C9 (witness): concrete refresh at time 100 with a 3600-second
lifetime yields `expires_at = 3600100`. -/
theorem C9_witness :
    ((refreshAccessToken 100 (.status 201 (.parsed ⟨some "A2", none, 3600⟩))
        true (.parsed ⟨some "A1", some "R1", some 9⟩) none).saved).map
      TokenObj.expires_at = some (some 3600100) :=
  C9_expires_at_computed 100 201 ⟨some "A2", none, 3600⟩ true _ none
    ⟨some "A1", some "R1", some 9⟩ rfl (by decide) (by decide) (by decide)

/-- C5 (counterexample): at `expires_at = now + 5min` exactly, the record
is within the safety margin of `now` under the spec's inclusive wording,
yet the code classifies it Valid: the cached token is returned and no
refresh is attempted (`now > expires_at - margin` is strict). -/
theorem C5_counterexample :
    specWithinMarginOrPast 0 300000 = true ∧
    isExpiringSoon 0 ⟨some "A", some "R", some 300000⟩ = false ∧
    (getAccessToken 0 .transportError true
        (.parsed ⟨some "A", some "R", some 300000⟩)
        (some ⟨some "A", some "R", some 300000⟩)).result = some "A" ∧
    (getAccessToken 0 .transportError true
        (.parsed ⟨some "A", some "R", some 300000⟩)
        (some ⟨some "A", some "R", some 300000⟩)).refreshAttempted =
      false := by decide

/-- C5 (amended): a cached record is classified ExpiringSoon exactly when
`expires_at` is strictly less than `now + 5min` (so `expires_at` equal to
`now + 5min` exactly is Valid); at `now + 5min - 1ms` a refresh is
attempted, and at `now + 5min + 1ms` the cached access token is returned
with no refresh and no network call. -/
theorem C5_amended (now : Int) (t : TokenObj) (resp : HttpResponse)
    (writeOk : Bool) (file : FileState)
    (ha : truthy t.access_token = true) :
    (isExpiringSoon now t = true ↔
      t.expires_at.getD 0 < now + safetyMarginMs) ∧
    isExpiringSoon now
      ⟨t.access_token, t.refresh_token, some (now + safetyMarginMs - 1)⟩ =
      true ∧
    (getAccessToken now resp writeOk file
        (some ⟨t.access_token, t.refresh_token,
          some (now + safetyMarginMs - 1)⟩)).refreshAttempted = true ∧
    isExpiringSoon now
      ⟨t.access_token, t.refresh_token, some (now + safetyMarginMs + 1)⟩ =
      false ∧
    (getAccessToken now resp writeOk file
        (some ⟨t.access_token, t.refresh_token,
          some (now + safetyMarginMs + 1)⟩)).result = t.access_token ∧
    (getAccessToken now resp writeOk file
        (some ⟨t.access_token, t.refresh_token,
          some (now + safetyMarginMs + 1)⟩)).refreshAttempted = false ∧
    (getAccessToken now resp writeOk file
        (some ⟨t.access_token, t.refresh_token,
          some (now + safetyMarginMs + 1)⟩)).networkCalled = false := by
  have hexp1 : isExpiringSoon now
      ⟨t.access_token, t.refresh_token, some (now + safetyMarginMs - 1)⟩ =
      true := by
    simp only [isExpiringSoon, Option.getD_some, decide_eq_true_eq,
      safetyMarginMs]
    omega
  have hexp2 : isExpiringSoon now
      ⟨t.access_token, t.refresh_token, some (now + safetyMarginMs + 1)⟩ =
      false := by
    simp only [isExpiringSoon, Option.getD_some, decide_eq_false_iff_not,
      safetyMarginMs]
    omega
  refine ⟨?_, hexp1, ?_, hexp2, ?_, ?_, ?_⟩
  · simp only [isExpiringSoon, decide_eq_true_eq, safetyMarginMs]
    omega
  · simp [getAccessToken, ha, hexp1]
  · simp [getAccessToken, ha, hexp2]
  · simp [getAccessToken, ha, hexp2]
  · simp [getAccessToken, ha, hexp2]

/-- C5 (witness): concrete boundary instances of the amended claim at
`now = 1000000`. -/
theorem C5_amended_witness :
    (isExpiringSoon 1000000 ⟨some "A", some "R", some 0⟩ = true ↔
      (⟨some "A", some "R", some 0⟩ : TokenObj).expires_at.getD 0 <
        1000000 + safetyMarginMs) ∧
    isExpiringSoon 1000000
      ⟨some "A", some "R", some (1000000 + safetyMarginMs - 1)⟩ = true ∧
    (getAccessToken 1000000 .transportError true .missing
        (some ⟨some "A", some "R",
          some (1000000 + safetyMarginMs - 1)⟩)).refreshAttempted = true ∧
    isExpiringSoon 1000000
      ⟨some "A", some "R", some (1000000 + safetyMarginMs + 1)⟩ = false ∧
    (getAccessToken 1000000 .transportError true .missing
        (some ⟨some "A", some "R",
          some (1000000 + safetyMarginMs + 1)⟩)).result = some "A" ∧
    (getAccessToken 1000000 .transportError true .missing
        (some ⟨some "A", some "R",
          some (1000000 + safetyMarginMs + 1)⟩)).refreshAttempted = false ∧
    (getAccessToken 1000000 .transportError true .missing
        (some ⟨some "A", some "R",
          some (1000000 + safetyMarginMs + 1)⟩)).networkCalled = false :=
  C5_amended 1000000 ⟨some "A", some "R", some 0⟩ .transportError true
    .missing (by decide)

/-- Helper: with a stored record whose tokens are truthy, the synchronous
segment of a refresh loads the record into the cache and issues the HTTPS
request. -/
lemma refreshSyncPhase_usable (t : TokenObj) (cache : Cache)
    (ha : truthy t.access_token = true)
    (hr : truthy t.refresh_token = true) :
    refreshSyncPhase (.parsed t) cache = (some t, true) := by
  simp [refreshSyncPhase, loadTokenCache, ha, hr]

/-- Helper: a request arriving with the record already cached and expiring
issues its own HTTPS refresh request and leaves the cache unchanged. -/
lemma getSyncPhase_cached (now : Int) (t : TokenObj)
    (ha : truthy t.access_token = true)
    (hr : truthy t.refresh_token = true)
    (he : isExpiringSoon now t = true) :
    getAccessTokenSyncPhase now (.parsed t) (some t) = (some t, true) := by
  simp [getAccessTokenSyncPhase, ha, he, refreshSyncPhase_usable t _ ha hr]

/-- Helper: a request arriving with an empty cache loads the expiring
record and issues its own HTTPS refresh request. -/
lemma getSyncPhase_empty (now : Int) (t : TokenObj)
    (ha : truthy t.access_token = true)
    (hr : truthy t.refresh_token = true)
    (he : isExpiringSoon now t = true) :
    getAccessTokenSyncPhase now (.parsed t) none = (some t, true) := by
  simp [getAccessTokenSyncPhase, loadedSyncPhase, loadTokenCache, ha, he,
    refreshSyncPhase_usable t _ ha hr]

/-- Helper: every request of a burst that starts with the record cached
issues one HTTPS refresh request. -/
lemma refreshBurst_cached (now : Int) (t : TokenObj)
    (ha : truthy t.access_token = true)
    (hr : truthy t.refresh_token = true)
    (he : isExpiringSoon now t = true) :
    ∀ n : Nat, refreshBurst now (.parsed t) n (some t) = n := by
  intro n
  induction n with
  | zero => rfl
  | succ n ih =>
    simp only [refreshBurst]
    rw [getSyncPhase_cached now t ha hr he]
    simp [ih]
    omega

/-- C2 (counterexample): two concurrent requests observing an expiring
stored record both issue a refresh: the burst performs 2 refresh
invocations, not the single-flight 1 the claim demands. -/
theorem C2_counterexample :
    refreshBurst 1000000 (.parsed ⟨some "A1", some "R1", some 0⟩) 2 none ≠
      1 ∧
    refreshBurst 1000000 (.parsed ⟨some "A1", some "R1", some 0⟩) 2 none =
      2 := by decide

/-- C2 (amended): there is no single-flight coordination: N concurrent
requests whose synchronous segments all observe the expiring record before
any refresh response arrives each invoke the refresh, issuing N refresh
requests in total (each caller then receives the result of its own
attempt). -/
theorem C2_amended (n : Nat) (now : Int) (t : TokenObj) (file : FileState)
    (hf : file = .parsed t) (ha : truthy t.access_token = true)
    (hr : truthy t.refresh_token = true)
    (he : isExpiringSoon now t = true) :
    refreshBurst now file n none = n := by
  subst hf
  cases n with
  | zero => rfl
  | succ n =>
    simp only [refreshBurst]
    rw [getSyncPhase_empty now t ha hr he]
    simp [refreshBurst_cached now t ha hr he]
    omega

/-- C2 (witness): a burst of three concurrent requests over a concrete
expiring record issues three refresh requests. -/
theorem C2_amended_witness :
    refreshBurst 1000000 (.parsed ⟨some "A1", some "R1", some 0⟩) 3 none =
      3 :=
  C2_amended 3 1000000 ⟨some "A1", some "R1", some 0⟩ _ rfl (by decide)
    (by decide) (by decide)

/-- Helper: with a usable stored record, any failing response (transport
error, non-2xx status, or unparsable 2xx body) makes the refresh reject
after the request was issued, leaving the file untouched and the cache
holding the record loaded at the start of the refresh. -/
lemma refresh_errs_of_respFails (now : Int) (resp : HttpResponse)
    (writeOk : Bool) (t : TokenObj) (cache : Cache)
    (ha : truthy t.access_token = true)
    (hr : truthy t.refresh_token = true)
    (hfail : respFails resp = true) :
    ∃ e, refreshAccessToken now resp writeOk (.parsed t) cache =
      ⟨.err e, .parsed t, some t, true, none⟩ := by
  cases resp with
  | transportError =>
    exact ⟨.transportError,
      by simp [refreshAccessToken, loadTokenCache, ha, hr]⟩
  | status code body =>
    by_cases h2 : 200 ≤ code ∧ code < 300
    · cases body with
      | malformed =>
        exact ⟨.parseError code,
          by simp [refreshAccessToken, loadTokenCache, ha, hr, h2]⟩
      | parsed tr =>
        exfalso
        simp [respFails, h2] at hfail
    · exact ⟨.httpError code,
        by simp [refreshAccessToken, loadTokenCache, ha, hr, h2]⟩

/-- Helper: a token request over a usable expiring record whose refresh
fails yields null, keeps the file unchanged and leaves the record in the
cache. -/
lemma getAccessToken_failed_refresh (now : Int) (resp : HttpResponse)
    (writeOk : Bool) (t : TokenObj) (cache : Cache)
    (ha : truthy t.access_token = true)
    (hr : truthy t.refresh_token = true)
    (he : isExpiringSoon now t = true)
    (hc : cache = none ∨ cache = some t)
    (hfail : respFails resp = true) :
    getAccessToken now resp writeOk (.parsed t) cache =
      ⟨none, .parsed t, some t, true, true, true, true⟩ := by
  rcases hc with rfl | rfl
  · obtain ⟨e, hre⟩ :=
      refresh_errs_of_respFails now resp writeOk t (some t) ha hr hfail
    simp [getAccessToken, getAccessTokenLoaded, loadTokenCache, ha, he, hre]
  · obtain ⟨e, hre⟩ :=
      refresh_errs_of_respFails now resp writeOk t (some t) ha hr hfail
    simp [getAccessToken, ha, he, hre]

/-- C4 (counterexample): after a failed refresh the state is not Absent —
the record stays cached — and the failed token is retried automatically:
the very next request over the resulting state attempts a refresh again. -/
theorem C4_counterexample :
    (getAccessToken 1000000 (.status 500 .malformed) true
        (.parsed ⟨some "A1", some "R1", some 0⟩) none).cache ≠ none ∧
    (getAccessToken 1000000 (.status 500 .malformed) true
        (.parsed ⟨some "A1", some "R1", some 0⟩) none).cache =
      some ⟨some "A1", some "R1", some 0⟩ ∧
    (getAccessToken 1000001 (.status 500 .malformed) true
        (getAccessToken 1000000 (.status 500 .malformed) true
          (.parsed ⟨some "A1", some "R1", some 0⟩) none).file
        (getAccessToken 1000000 (.status 500 .malformed) true
          (.parsed ⟨some "A1", some "R1", some 0⟩)
          none).cache).refreshAttempted = true := by decide

/-- C4 (amended): when the refresh attempt fails, the caller is reported
authentication-required and the stale record is preserved (file unchanged)
and never served (the request yields null) — but the state does not become
Absent: the record remains cached, and a subsequent request that still
observes it within the safety margin attempts the refresh again. -/
theorem C4_amended (now now2 : Int) (resp resp2 : HttpResponse)
    (writeOk writeOk2 : Bool) (file : FileState) (cache : Cache)
    (t : TokenObj) (hf : file = .parsed t)
    (ha : truthy t.access_token = true)
    (hr : truthy t.refresh_token = true)
    (he : isExpiringSoon now t = true)
    (hc : cache = none ∨ cache = some t)
    (hfail : respFails resp = true)
    (he2 : isExpiringSoon now2 t = true) :
    (ensureAuthenticated false now resp writeOk file cache).result =
      .authRequired ∧
    (getAccessToken now resp writeOk file cache).result = none ∧
    (getAccessToken now resp writeOk file cache).file = file ∧
    (getAccessToken now resp writeOk file cache).cache = some t ∧
    (getAccessToken now2 resp2 writeOk2
        (getAccessToken now resp writeOk file cache).file
        (getAccessToken now resp writeOk file
          cache).cache).refreshAttempted = true := by
  subst hf
  have hg := getAccessToken_failed_refresh now resp writeOk t cache ha hr he
    hc hfail
  rw [hg]
  refine ⟨?_, rfl, rfl, rfl, ?_⟩
  · simp [ensureAuthenticated, hg]
  · simp [getAccessToken, ha, he2]

/-- C4 (witness): concrete failed refresh over an expired record: the
caller is told authentication is required, the record survives in file and
cache, and the next request retries the refresh. -/
theorem C4_witness :
    (ensureAuthenticated false 1000000 (.status 500 .malformed) true
        (.parsed ⟨some "A1", some "R1", some 0⟩) none).result =
      .authRequired ∧
    (getAccessToken 1000000 (.status 500 .malformed) true
        (.parsed ⟨some "A1", some "R1", some 0⟩) none).result = none ∧
    (getAccessToken 1000000 (.status 500 .malformed) true
        (.parsed ⟨some "A1", some "R1", some 0⟩) none).file =
      .parsed ⟨some "A1", some "R1", some 0⟩ ∧
    (getAccessToken 1000000 (.status 500 .malformed) true
        (.parsed ⟨some "A1", some "R1", some 0⟩) none).cache =
      some ⟨some "A1", some "R1", some 0⟩ ∧
    (getAccessToken 1000001 (.status 500 .malformed) false
        (getAccessToken 1000000 (.status 500 .malformed) true
          (.parsed ⟨some "A1", some "R1", some 0⟩) none).file
        (getAccessToken 1000000 (.status 500 .malformed) true
          (.parsed ⟨some "A1", some "R1", some 0⟩)
          none).cache).refreshAttempted = true :=
  C4_amended 1000000 1000001 (.status 500 .malformed)
    (.status 500 .malformed) true false _ none
    ⟨some "A1", some "R1", some 0⟩ rfl (by decide) (by decide) (by decide)
    (Or.inl rfl) (by decide) (by decide)

end OutlookMcp
